import Mathlib

/-! Verification of the city-dweller registry (`app/main.py`).

A shallow embedding of the Flask request handlers of the bicycle-project
repository: the date normalizer (`strptime`/`strftime` reformatting), the
salted SHA-256 credential hasher, the listing formatter, and the
`/manage_dweller`, `/delete/<id>`, `/manage_rental/<id>` handlers, modelled
over an explicit store state (`city_dwellers`, `rentals`, `bicycles`
tables as association-list records).

Python machine-level details are modelled as follows: strings are Lean
`String`s, JSON-ish cell values are the inductive `Val` (numbers as `Rat`,
Python `float` values restricted to the decimal literals this application
produces), exceptions are explicit `Except` values, and the randomness
consumed by `uuid.uuid4()` is passed in as explicit string arguments.
-/

namespace CityApp

/-- A cell value of a store row or of a computed record: the JSON-ish data
Supabase hands back (string, number, boolean or null).  Numbers are modelled
as rationals. -/
inductive Val
  | str (s : String)
  | num (q : Rat)
  | bool (b : Bool)
  | null
deriving DecidableEq

/-- A record (a Python dict / a table row): an association list from field
names to values.  Keys are unique in every record the program builds. -/
abbrev Rec := List (String × Val)

/-- `r[k]` lookup returning the first binding of `k`, `none` when absent
(Python `dict.get`). -/
def getField : Rec → String → Option Val
  | [], _ => none
  | (k', v) :: rest, k => if k' = k then some v else getField rest k

/-- `r[k] = v` assignment: replaces the first binding of `k`, appends when
absent (Python dict item assignment). -/
def setField : Rec → String → Val → Rec
  | [], k, v => [(k, v)]
  | (k', v') :: rest, k, v =>
      if k' = k then (k, v) :: rest else (k', v') :: setField rest k v

/-! ## Date normalizer

`datetime.strptime(s, '%m/%d/%Y').strftime('%Y-%m-%d')` and its inverse
`strptime(s, '%Y-%m-%d').strftime('%m/%d/%Y')`.  CPython's `_strptime`
compiles each directive to a regular expression — `%m` to
`1[0-2]|0[1-9]|[1-9]`, `%d` to `3[01]|[12]\d|0[1-9]|[1-9]`, `%Y` to
`\d\d\d\d` — matched in sequence with the literal separators, requires the
whole input to be consumed, and the `datetime` constructor then validates
the day against the month length and the year against `MINYEAR = 1` (the
regexes already bound month, day and year).  The alternations are ordered;
on the patterns used here a failing earlier alternative never blocks a
later successful parse (each numeric field is followed by a separator or
the end of input), so they are modelled as first-match-wins. -/

/-- The numeric value of a decimal digit character. -/
def digitVal (c : Char) : Nat := c.toNat - 48

/-- Decimal digit test (`\d`). -/
def isDig (c : Char) : Bool := 48 ≤ c.toNat && c.toNat ≤ 57

/-- The `%m` directive: regex `1[0-2]|0[1-9]|[1-9]`. -/
def matchMonth : List Char → Option (Nat × List Char)
  | c1 :: c2 :: rest =>
      if c1 = '1' && 48 ≤ c2.toNat && c2.toNat ≤ 50 then
        some (10 + digitVal c2, rest)
      else if c1 = '0' && 49 ≤ c2.toNat && c2.toNat ≤ 57 then
        some (digitVal c2, rest)
      else if 49 ≤ c1.toNat && c1.toNat ≤ 57 then
        some (digitVal c1, c2 :: rest)
      else none
  | [c1] =>
      if 49 ≤ c1.toNat && c1.toNat ≤ 57 then some (digitVal c1, []) else none
  | [] => none

/-- The `%d` directive: regex `3[01]|[12]\d|0[1-9]|[1-9]`. -/
def matchDay : List Char → Option (Nat × List Char)
  | c1 :: c2 :: rest =>
      if c1 = '3' && (c2 = '0' || c2 = '1') then
        some (30 + digitVal c2, rest)
      else if (c1 = '1' || c1 = '2') && isDig c2 then
        some (digitVal c1 * 10 + digitVal c2, rest)
      else if c1 = '0' && 49 ≤ c2.toNat && c2.toNat ≤ 57 then
        some (digitVal c2, rest)
      else if 49 ≤ c1.toNat && c1.toNat ≤ 57 then
        some (digitVal c1, c2 :: rest)
      else none
  | [c1] =>
      if 49 ≤ c1.toNat && c1.toNat ≤ 57 then some (digitVal c1, []) else none
  | [] => none

/-- The `%Y` directive: regex `\d\d\d\d` (exactly four digits). -/
def matchYear4 : List Char → Option (Nat × List Char)
  | c1 :: c2 :: c3 :: c4 :: rest =>
      if isDig c1 && isDig c2 && isDig c3 && isDig c4 then
        some (digitVal c1 * 1000 + digitVal c2 * 100 + digitVal c3 * 10 +
          digitVal c4, rest)
      else none
  | _ => none

/-- A literal separator character in the format string. -/
def matchLit (c : Char) : List Char → Option (List Char)
  | c' :: rest => if c' = c then some rest else none
  | [] => none

/-- The Gregorian leap-year rule used by `datetime`. -/
def isLeapYear (y : Nat) : Bool :=
  (y % 4 == 0 && y % 100 != 0) || y % 400 == 0

/-- `calendar`-style month length, as validated by the `datetime`
constructor. -/
def daysInMonth (y m : Nat) : Nat :=
  if m = 2 then (if isLeapYear y then 29 else 28)
  else if m = 4 ∨ m = 6 ∨ m = 9 ∨ m = 11 then 30
  else 31

/-- A parsed calendar date. -/
structure Date where
  year : Nat
  month : Nat
  day : Nat
deriving DecidableEq

/-- `datetime.strptime(s, '%m/%d/%Y')`: directive matching, the
whole-input check ("unconverted data remains"), and the `datetime`
constructor's range validation. -/
def parseDisplayDate (s : String) : Option Date :=
  match matchMonth s.data with
  | some (m, r1) =>
      match matchLit '/' r1 with
      | some r2 =>
          match matchDay r2 with
          | some (d, r3) =>
              match matchLit '/' r3 with
              | some r4 =>
                  match matchYear4 r4 with
                  | some (y, []) =>
                      if 1 ≤ y ∧ d ≤ daysInMonth y m then some ⟨y, m, d⟩
                      else none
                  | _ => none
              | none => none
          | none => none
      | none => none
  | none => none

/-- `datetime.strptime(s, '%Y-%m-%d')`. -/
def parseIsoDate (s : String) : Option Date :=
  match matchYear4 s.data with
  | some (y, r1) =>
      match matchLit '-' r1 with
      | some r2 =>
          match matchMonth r2 with
          | some (m, r3) =>
              match matchLit '-' r3 with
              | some r4 =>
                  match matchDay r4 with
                  | some (d, []) =>
                      if 1 ≤ y ∧ d ≤ daysInMonth y m then some ⟨y, m, d⟩
                      else none
                  | _ => none
              | none => none
          | none => none
      | none => none
  | none => none

/-- A decimal digit as a character. -/
def dChar (n : Nat) : Char := Char.ofNat (48 + n)

/-- `strftime` zero-padded two-digit field (`%m`, `%d`). -/
def pad2 (n : Nat) : List Char := [dChar (n / 10), dChar (n % 10)]

/-- `strftime` zero-padded four-digit year (`%Y`). -/
def pad4 (n : Nat) : List Char :=
  [dChar (n / 1000), dChar (n / 100 % 10), dChar (n / 10 % 10), dChar (n % 10)]

/-- `d.strftime('%Y-%m-%d')`. -/
def formatIso (dt : Date) : String :=
  ⟨pad4 dt.year ++ '-' :: pad2 dt.month ++ '-' :: pad2 dt.day⟩

/-- `d.strftime('%m/%d/%Y')`. -/
def formatDisplay (dt : Date) : String :=
  ⟨pad2 dt.month ++ '/' :: pad2 dt.day ++ '/' :: pad4 dt.year⟩

/-- `toStorage`: MM/DD/YYYY display form to ISO storage form
(`strptime('%m/%d/%Y')` then `strftime('%Y-%m-%d')`); `none` models the
`ValueError`. -/
def toStorage (s : String) : Option String :=
  (parseDisplayDate s).map formatIso

/-- `toDisplay`: ISO storage form to MM/DD/YYYY display form
(`strptime('%Y-%m-%d')` then `strftime('%m/%d/%Y')`). -/
def toDisplay (s : String) : Option String :=
  (parseIsoDate s).map formatDisplay

/-! ## Credential hasher

`hashlib.sha256((password + salt).encode()).hexdigest()` — SHA-256
(FIPS 180-4) over the UTF-8 bytes of the concatenation, hex-encoded.
32-bit machine words are modelled as `Nat` reduced modulo `2 ^ 32`. -/

/-- Truncation to a 32-bit word. -/
def w32 (n : Nat) : Nat := n % 4294967296

/-- Rotate a 32-bit word right by `n` bits. -/
def rotr (x n : Nat) : Nat := w32 (x / 2 ^ n + x % 2 ^ n * 2 ^ (32 - n))

/-- 32-bit complement. -/
def not32 (x : Nat) : Nat := Nat.xor x 4294967295

/-- SHA-256 `Ch(x, y, z)`. -/
def ch (x y z : Nat) : Nat := Nat.xor (Nat.land x y) (Nat.land (not32 x) z)

/-- SHA-256 `Maj(x, y, z)`. -/
def maj (x y z : Nat) : Nat :=
  Nat.xor (Nat.xor (Nat.land x y) (Nat.land x z)) (Nat.land y z)

/-- SHA-256 `Σ0`. -/
def bigSigma0 (x : Nat) : Nat :=
  Nat.xor (Nat.xor (rotr x 2) (rotr x 13)) (rotr x 22)

/-- SHA-256 `Σ1`. -/
def bigSigma1 (x : Nat) : Nat :=
  Nat.xor (Nat.xor (rotr x 6) (rotr x 11)) (rotr x 25)

/-- SHA-256 `σ0`. -/
def smallSigma0 (x : Nat) : Nat :=
  Nat.xor (Nat.xor (rotr x 7) (rotr x 18)) (x / 2 ^ 3)

/-- SHA-256 `σ1`. -/
def smallSigma1 (x : Nat) : Nat :=
  Nat.xor (Nat.xor (rotr x 17) (rotr x 19)) (x / 2 ^ 10)

/-- The 64 SHA-256 round constants (FIPS 180-4, in decimal). -/
def sha256K : List Nat :=
  [1116352408, 1899447441, 3049323471, 3921009573, 961987163,
   1508970993, 2453635748, 2870763221, 3624381080, 310598401,
   607225278, 1426881987, 1925078388, 2162078206, 2614888103,
   3248222580, 3835390401, 4022224774, 264347078, 604807628,
   770255983, 1249150122, 1555081692, 1996064986, 2554220882,
   2821834349, 2952996808, 3210313671, 3336571891, 3584528711,
   113926993, 338241895, 666307205, 773529912, 1294757372,
   1396182291, 1695183700, 1986661051, 2177026350, 2456956037,
   2730485921, 2820302411, 3259730800, 3345764771, 3516065817,
   3600352804, 4094571909, 275423344, 430227734, 506948616,
   659060556, 883997877, 958139571, 1322822218, 1537002063,
   1747873779, 1955562222, 2024104815, 2227730452, 2361852424,
   2428436474, 2756734187, 3204031479, 3329325298]

/-- A SHA-256 chaining state of eight 32-bit words. -/
structure Hash8 where
  a : Nat
  b : Nat
  c : Nat
  d : Nat
  e : Nat
  f : Nat
  g : Nat
  h : Nat
deriving DecidableEq

/-- The SHA-256 initial chaining value (FIPS 180-4, in decimal). -/
def sha256H0 : Hash8 :=
  ⟨1779033703, 3144134277, 1013904242, 2773480762,
   1359893119, 2600822924, 528734635, 1541459225⟩

/-- One compression round. -/
def roundStep (st : Hash8) (k : Nat) (w : Nat) : Hash8 :=
  let t1 := w32 (st.h + bigSigma1 st.e + ch st.e st.f st.g + k + w)
  let t2 := w32 (bigSigma0 st.a + maj st.a st.b st.c)
  ⟨w32 (t1 + t2), st.a, st.b, st.c, w32 (st.d + t1), st.e, st.f, st.g⟩

/-- Big-endian packing of bytes into 32-bit words. -/
def toWords : List Nat → List Nat
  | b0 :: b1 :: b2 :: b3 :: rest =>
      (((b0 * 256 + b1) * 256 + b2) * 256 + b3) :: toWords rest
  | _ => []

/-- Message-schedule extension: appends `fuel` further words `w[t]` from
`σ1(w[t-2]) + w[t-7] + σ0(w[t-15]) + w[t-16]`. -/
def extendSchedule : List Nat → Nat → List Nat
  | w, 0 => w
  | w, Nat.succ k =>
      let t := w32 (smallSigma1 (w.getD (w.length - 2) 0) +
        w.getD (w.length - 7) 0 + smallSigma0 (w.getD (w.length - 15) 0) +
        w.getD (w.length - 16) 0)
      extendSchedule (w ++ [t]) k

/-- Compression of one 64-byte block into the chaining state. -/
def compressBlock (hv : Hash8) (block : List Nat) : Hash8 :=
  let w := extendSchedule (toWords block) 48
  let st := (sha256K.zip w).foldl (fun s kw => roundStep s kw.1 kw.2) hv
  ⟨w32 (hv.a + st.a), w32 (hv.b + st.b), w32 (hv.c + st.c),
   w32 (hv.d + st.d), w32 (hv.e + st.e), w32 (hv.f + st.f),
   w32 (hv.g + st.g), w32 (hv.h + st.h)⟩

/-- The eight-byte big-endian encoding of the message bit length. -/
def be8 (n : Nat) : List Nat :=
  [n / 2 ^ 56 % 256, n / 2 ^ 48 % 256, n / 2 ^ 40 % 256, n / 2 ^ 32 % 256,
   n / 2 ^ 24 % 256, n / 2 ^ 16 % 256, n / 2 ^ 8 % 256, n % 256]

/-- SHA-256 padding: a `0x80` byte, zeros to 56 mod 64, then the bit
length. -/
def sha256Pad (msg : List Nat) : List Nat :=
  msg ++ 128 :: List.replicate ((120 - (msg.length + 1) % 64) % 64) 0 ++
    be8 (msg.length * 8)

/-- Split a byte sequence into 64-byte blocks. -/
def toBlocks : List Nat → List (List Nat)
  | [] => []
  | c :: rest => (c :: rest).take 64 :: toBlocks ((c :: rest).drop 64)
termination_by l => l.length
decreasing_by
  simp only [List.length_drop, List.length_cons]
  omega

/-- The digest as a 256-bit natural number: the big-endian concatenation of
the eight final 32-bit chaining words. -/
def digestNat (hv : Hash8) : Nat :=
  hv.a % 4294967296 * 2 ^ 224 + hv.b % 4294967296 * 2 ^ 192 +
  hv.c % 4294967296 * 2 ^ 160 + hv.d % 4294967296 * 2 ^ 128 +
  hv.e % 4294967296 * 2 ^ 96 + hv.f % 4294967296 * 2 ^ 64 +
  hv.g % 4294967296 * 2 ^ 32 + hv.h % 4294967296

/-- SHA-256 of a byte sequence, as a 256-bit natural number. -/
def sha256Nat (msg : List Nat) : Nat :=
  digestNat ((toBlocks (sha256Pad msg)).foldl compressBlock sha256H0)

/-- A lowercase hexadecimal digit. -/
def hexDigit (n : Nat) : Char :=
  if n < 10 then Char.ofNat (48 + n) else Char.ofNat (87 + n)

/-- Zero-padded lowercase hexadecimal rendering with `k` digits. -/
def toHexPad (k n : Nat) : String :=
  ⟨(List.range k).map (fun i => hexDigit (n / 16 ^ (k - 1 - i) % 16))⟩

/-- `hashlib.sha256(bytes).hexdigest()`: the digest as 64 lowercase hex
digits. -/
def sha256hex (msg : List Nat) : String := toHexPad 64 (sha256Nat msg)

/-- UTF-8 encoding of one character (RFC 3629). -/
def utf8Char (c : Char) : List Nat :=
  let n := c.toNat
  if n < 128 then [n]
  else if n < 2048 then [192 + n / 64, 128 + n % 64]
  else if n < 65536 then [224 + n / 4096, 128 + n / 64 % 64, 128 + n % 64]
  else [240 + n / 262144, 128 + n / 4096 % 64, 128 + n / 64 % 64,
    128 + n % 64]

/-- `str.encode()`: the UTF-8 bytes of a string. -/
def strBytes (s : String) : List Nat := (s.data.map utf8Char).flatten

/-- `hashlib.sha256((password + salt).encode()).hexdigest()` — the
credential hash derivation of the add-dweller action. -/
def hashPassword (password salt : String) : String :=
  sha256hex (strBytes (password ++ salt))

/-- A family of pairwise-distinct salt strings. -/
def saltOf (n : Nat) : String := ⟨List.replicate n 'a'⟩

/-! ## Store model

The Supabase tables as in-memory lists of records, and the query-builder
calls the handlers issue against them: `.select(...).eq(k, v)`,
`.update(payload).eq(k, v)` (returning the updated rows, in table order)
and `.insert(row)`. -/

/-- Conjunction of `.eq(k, v)` filters. -/
def matchesConds (r : Rec) (conds : List (String × Val)) : Bool :=
  conds.all (fun kv => getField r kv.1 == some kv.2)

/-- `table.select("*").eq(...)...execute().data`. -/
def selectWhere (rows : List Rec) (conds : List (String × Val)) : List Rec :=
  rows.filter (fun r => matchesConds r conds)

/-- Overwrite the payload fields into a row. -/
def applyPayload (payload : Rec) (r : Rec) : Rec :=
  payload.foldl (fun acc kv => setField acc kv.1 kv.2) r

/-- `table.update(payload).eq(...)...execute()`: the new table contents and
`response.data` (the affected rows, updated, in table order). -/
def updateWhere (rows : List Rec) (conds : List (String × Val))
    (payload : Rec) : List Rec × List Rec :=
  (rows.map (fun r => if matchesConds r conds then applyPayload payload r else r),
   (rows.filter (fun r => matchesConds r conds)).map (applyPayload payload))

/-- The whole external store: the three tables the handlers touch. -/
structure Db where
  dwellers : List Rec
  rentals : List Rec
  bicycles : List Rec
deriving DecidableEq

/-- A flash message queued by a handler (category and text). -/
inductive Flash
  | success (msg : String)
  | error (msg : String)
  | warning (msg : String)
deriving DecidableEq

/-- A Python exception as raised by the handler bodies: `ValueError`
(caught by the dedicated handler) or Flask/Werkzeug's
`BadRequestKeyError` from `request.form[missing_key]` (a `KeyError`,
caught only by the catch-all `except Exception`). -/
inductive PyExn
  | valueError (msg : String)
  | badRequestKey (key : String)
deriving DecidableEq

/-- The user-visible text of a `BadRequestKeyError` (`str(e)` of the
Werkzeug 400 response; it does not name the missing key). -/
def badRequestMsg : String :=
  "400 Bad Request: The browser (or proxy) sent a request that the server could not understand."

/-- A submitted HTML form: field names to string values. -/
abbrev Form := List (String × String)

/-- `request.form.get(k)`: `none` when the field is absent. -/
def formGet : Form → String → Option String
  | [], _ => none
  | (k', v) :: rest, k => if k' = k then some v else formGet rest k

/-- `request.form[k]`: raises `BadRequestKeyError` when the field is
absent. -/
def formIdx (f : Form) (k : String) : Except PyExn String :=
  match formGet f k with
  | some v => Except.ok v
  | none => Except.error (PyExn.badRequestKey k)

/-! ## Resident listing (`list_dwellers`, the `/` and `/dashboard` route)

The success path of the handler: select the rows with
`account_status = 'active'`, then reformat each row in place — the two date
fields to display form, `credit_balance` and `rating` through `float()` —
with one `except (ValueError, TypeError)` around the whole per-row block
that, at whatever point the block failed, overwrites `credit_balance` and
`rating` with `0`. -/

/-- Python truthiness of a cell value (`if dweller.get(k):`). -/
def truthy : Val → Bool
  | Val.str s => !(s == "")
  | Val.num q => !(q == 0)
  | Val.bool b => b
  | Val.null => false

/-- The value of a digit list in base 10. -/
def digitsToNat (l : List Char) : Nat :=
  l.foldl (fun a c => a * 10 + digitVal c) 0

/-- `float(s)` on a string: Python accepts an optional sign and a decimal
literal with an optional fractional part (modelled without the exponent,
`inf`/`nan` and underscore forms, which this application never produces);
`none` models the `ValueError`. -/
def pyFloatOfString (s : String) : Option Rat :=
  let signAndRest : Rat × List Char :=
    match s.data with
    | '-' :: t => (-1, t)
    | '+' :: t => (1, t)
    | t => (1, t)
  let intPart := signAndRest.2.takeWhile isDig
  let rest := signAndRest.2.dropWhile isDig
  match rest with
  | [] =>
      if intPart = [] then none
      else some (signAndRest.1 * (digitsToNat intPart : Rat))
  | '.' :: frac =>
      if frac.all isDig && !(intPart = [] && frac = []) then
        some (signAndRest.1 * ((digitsToNat intPart : Rat) +
          (digitsToNat frac : Rat) / (10 : Rat) ^ frac.length))
      else none
  | _ => none

/-- `float(v)` on a cell value: numbers pass through, booleans coerce,
strings are parsed, `None` raises `TypeError`. -/
def pyFloat : Val → Option Rat
  | Val.num q => some q
  | Val.bool b => some (if b then 1 else 0)
  | Val.str s => pyFloatOfString s
  | Val.null => none

/-- One date-field statement of the per-row formatting block:
`if dweller.get(key): dweller[key] = strptime(...).strftime(...)`.
A parse failure (`ValueError`) or a non-string value (`TypeError`) raises,
carrying the partially mutated row. -/
def formatStepDate (d : Rec) (key : String) : Except Rec Rec :=
  match getField d key with
  | some v =>
      if truthy v then
        match v with
        | Val.str s =>
            match toDisplay s with
            | some s2 => Except.ok (setField d key (Val.str s2))
            | none => Except.error d
        | _ => Except.error d
      else Except.ok d
  | none => Except.ok d

/-- One numeric statement of the per-row formatting block:
`dweller[key] = float(dweller.get(key, 0))`. -/
def formatStepNum (d : Rec) (key : String) : Except Rec Rec :=
  match pyFloat ((getField d key).getD (Val.num 0)) with
  | some q => Except.ok (setField d key (Val.num q))
  | none => Except.error d

/-- The per-row formatting block of `list_dwellers` with its
`except (ValueError, TypeError)` handler: on failure the partially
mutated row keeps whatever formatting had already been applied and both
`credit_balance` and `rating` are overwritten with `0`. -/
def formatDweller (d : Rec) : Rec :=
  match (do
      let d1 ← formatStepDate d "registration_date"
      let d2 ← formatStepDate d1 "date_of_birth"
      let d3 ← formatStepNum d2 "credit_balance"
      formatStepNum d3 "rating" : Except Rec Rec) with
  | Except.ok r => r
  | Except.error r =>
      setField (setField r "credit_balance" (Val.num 0)) "rating" (Val.num 0)

/-- `listActive`: the success path of the `/` handler — the rows with
`account_status = 'active'`, each passed through the formatting block. -/
def list_dwellers (db : Db) : List Rec :=
  (selectWhere db.dwellers [("account_status", Val.str "active")]).map
    formatDweller

/-! ## Rental coordinator (`manage_rental`, `POST /manage_rental/<id>`)

`action = 'start'` inserts a rental with `status = 'active'` and the start
coordinates, then updates the referenced bicycle to `in_use` — with no
precondition on the bicycle or on existing rentals.  `action = 'end'`
updates every rental matching `(dweller_id, status = 'active')` to
`completed`, and if any row was affected takes `data[0]['bicycle_id']` and
updates that bicycle to `available`.  `datetime.now().isoformat()` is
passed in as the explicit `now` argument.  The handler's
`except Exception` is not modelled: no modelled operation raises. -/

/-- `request.form.get(k)` as a cell value: absent fields become `null` in
the inserted row. -/
def formVal (f : Form) (k : String) : Val :=
  match formGet f k with
  | some s => Val.str s
  | none => Val.null

/-- The `POST /manage_rental/<dweller_id>` handler. -/
def manage_rental (db : Db) (dwellerId : String) (form : Form)
    (now : String) : Db × List Flash :=
  let action := formGet form "action"
  let bikeId := formVal form "bike_id"
  if action = some "start" then
    let newRental : Rec :=
      [("dweller_id", Val.str dwellerId),
       ("bicycle_id", bikeId),
       ("status", Val.str "active"),
       ("start_location_lat", formVal form "lat"),
       ("start_location_lng", formVal form "lng")]
    let rentals2 := db.rentals ++ [newRental]
    let bikes2 := (updateWhere db.bicycles [("id", bikeId)]
      [("status", Val.str "in_use")]).1
    ({ db with rentals := rentals2, bicycles := bikes2 },
     [Flash.success "Rental started successfully!"])
  else if action = some "end" then
    let rentalUpdate : Rec :=
      [("status", Val.str "completed"),
       ("end_time", Val.str now),
       ("end_location_lat", formVal form "lat"),
       ("end_location_lng", formVal form "lng")]
    let upd := updateWhere db.rentals
      [("dweller_id", Val.str dwellerId), ("status", Val.str "active")]
      rentalUpdate
    match upd.2 with
    | affected0 :: _ =>
        match getField affected0 "bicycle_id" with
        | some bid =>
            let bikes2 := (updateWhere db.bicycles [("id", bid)]
              [("status", Val.str "available")]).1
            ({ db with rentals := upd.1, bicycles := bikes2 },
             [Flash.success "Rental ended successfully!"])
        | none =>
            ({ db with rentals := upd.1 },
             [Flash.error ("Error managing rental: " ++ "bicycle_id")])
    | [] => ({ db with rentals := upd.1 }, [])
  else (db, [])

/-! ## Standalone soft delete (`delete_dweller`, `POST /delete/<id>`)

Checks for rentals with `(dweller_id, status = 'active')`; when any exist
it only flashes the blocked message.  Otherwise it updates the row matching
`id` with `{'active': False}` — note: the boolean column `active`, not the
`account_status` column the listing filters on. -/

/-- The `POST /delete/<dweller_id>` handler. -/
def delete_dweller (db : Db) (dwellerId : String) : Db × List Flash :=
  let rentalData := selectWhere db.rentals
    [("dweller_id", Val.str dwellerId), ("status", Val.str "active")]
  if rentalData ≠ [] then
    (db, [Flash.error "Cannot remove dweller with active rentals."])
  else
    let upd := updateWhere db.dwellers [("id", Val.str dwellerId)]
      [("active", Val.bool false)]
    ({ db with dwellers := upd.1 },
     if upd.2 ≠ [] then [Flash.success "City dweller removed successfully!"]
     else [Flash.error "City dweller not found."])

/-! ## Resident management (`manage_dweller`, `POST /manage_dweller`)

One dispatcher with three actions inside a `try` whose `except ValueError`
flashes `"Invalid data: ..."` and whose `except Exception` flashes
`"Unexpected error: ..."`.  No mutation precedes any raising statement in
any branch, so the branch bodies are modelled as `Except PyExn` values over
the unchanged store.  The randomness of `uuid.uuid4().hex` (the salt and
the verification-code token) enters as the `salt` and `vcode` arguments. -/

/-- Modelled from the spec: the external store's column defaults, which are
not part of the repository's source — a freshly inserted resident row gets
`account_status = 'active'`, `verification_status = 'pending'`,
`credit_balance = 0` and `rating = 0` when the insert payload does not
provide them (spec section 3 and `create` in section 4.4). -/
def storeInsertDefaults (r : Rec) : Rec :=
  [("account_status", Val.str "active"),
   ("verification_status", Val.str "pending"),
   ("credit_balance", Val.num 0),
   ("rating", Val.num 0)].foldl
    (fun acc kv => if getField acc kv.1 = none then acc ++ [kv] else acc) r

/-- `table('city_dwellers').insert(row).execute()`: the row is appended
with the store-side column defaults filled in. -/
def insertDweller (db : Db) (r : Rec) : Db :=
  { db with dwellers := db.dwellers ++ [storeInsertDefaults r] }

/-- The `add_dweller` required-field list, checked in order with
`if not request.form.get(field)`. -/
def requiredFields : List String :=
  ["first_name", "last_name", "email", "password", "registration_date",
   "date_of_birth"]

/-- The body of the `add_dweller` branch before its re-wrapping
`except ValueError`. -/
def addDwellerBody (db : Db) (form : Form) (salt vcode : String) :
    Except PyExn (Db × List Flash) := do
  match requiredFields.find? (fun fld => (formGet form fld).getD "" = "") with
  | some fld => throw (PyExn.valueError ("Missing required field: " ++ fld))
  | none => do
    let password ← formIdx form "password"
    let passwordHash := hashPassword password salt
    let rdRaw ← formIdx form "registration_date"
    let registrationDate ←
      match toStorage rdRaw with
      | some r => pure r
      | none => throw (PyExn.valueError "Invalid date format. Use MM/DD/YYYY")
    let dobRaw ← formIdx form "date_of_birth"
    let dateOfBirth ←
      match toStorage dobRaw with
      | some r => pure r
      | none => throw (PyExn.valueError "Invalid date format. Use MM/DD/YYYY")
    let firstName ← formIdx form "first_name"
    let lastName ← formIdx form "last_name"
    let email ← formIdx form "email"
    let phoneNumber ← formIdx form "phone_number"
    let address ← formIdx form "address"
    let newDweller : Rec :=
      [("first_name", Val.str firstName),
       ("last_name", Val.str lastName),
       ("email", Val.str email),
       ("phone_number", Val.str phoneNumber),
       ("date_of_birth", Val.str dateOfBirth),
       ("address", Val.str address),
       ("registration_date", Val.str registrationDate),
       ("password_hash", Val.str passwordHash),
       ("salt", Val.str salt),
       ("preferred_language",
         Val.str ((formGet form "preferred_language").getD "en")),
       ("verification_code", Val.str ((vcode.take 6).toUpper))]
    pure (insertDweller db newDweller,
      [Flash.success "City dweller added successfully!"])

/-- The `add_dweller` branch: its inner `except ValueError` re-raises with
the `"Invalid data format: "` prefix. -/
def addDwellerAction (db : Db) (form : Form) (salt vcode : String) :
    Except PyExn (Db × List Flash) :=
  match addDwellerBody db form salt vcode with
  | Except.error (PyExn.valueError m) =>
      Except.error (PyExn.valueError ("Invalid data format: " ++ m))
  | r => r

/-- The update payload of the `edit_dweller` branch, given the already
parsed dates and coerced numbers. -/
def editPayload (firstName lastName email phoneNumber dateOfBirth address
    registrationDate : String) (creditBalance rating : Rat)
    (verificationStatus preferredLanguage : String) : Rec :=
  [("first_name", Val.str firstName),
   ("last_name", Val.str lastName),
   ("email", Val.str email),
   ("phone_number", Val.str phoneNumber),
   ("date_of_birth", Val.str dateOfBirth),
   ("address", Val.str address),
   ("registration_date", Val.str registrationDate),
   ("credit_balance", Val.num creditBalance),
   ("rating", Val.num rating),
   ("verification_status", Val.str verificationStatus),
   ("preferred_language", Val.str preferredLanguage)]

/-- `float(request.form.get(k, 0))`: the `0` default when the field is
absent, a `ValueError` when present but not a float literal. -/
def formFloat (form : Form) (k : String) : Except PyExn Rat :=
  match formGet form k with
  | none => pure 0
  | some sv =>
      match pyFloatOfString sv with
      | some q => pure q
      | none => throw (PyExn.valueError
          ("could not convert string to float: " ++ sv))

/-- The `edit_dweller` branch.  The date `try/except ValueError` flashes
inline and returns (it does not catch the `BadRequestKeyError` of a missing
date field); the update is issued against `user_id`. -/
def editDwellerAction (db : Db) (form : Form) :
    Except PyExn (Db × List Flash) := do
  match formGet form "user_id" with
  | none => throw (PyExn.valueError "User ID is required")
  | some uid =>
    if uid = "" then throw (PyExn.valueError "User ID is required") else do
    let rdRaw ← formIdx form "registration_date"
    match toStorage rdRaw with
    | none =>
        pure (db, [Flash.error "Invalid date format. Please use MM/DD/YYYY"])
    | some registrationDate => do
      let dobRaw ← formIdx form "date_of_birth"
      match toStorage dobRaw with
      | none =>
          pure (db, [Flash.error "Invalid date format. Please use MM/DD/YYYY"])
      | some dateOfBirth => do
        let firstName ← formIdx form "first_name"
        let lastName ← formIdx form "last_name"
        let email ← formIdx form "email"
        let phoneNumber ← formIdx form "phone_number"
        let address ← formIdx form "address"
        let creditBalance ← formFloat form "credit_balance"
        let rating ← formFloat form "rating"
        let verificationStatus :=
          (formGet form "verification_status").getD "pending"
        let preferredLanguage :=
          (formGet form "preferred_language").getD "en"
        let upd := updateWhere db.dwellers [("user_id", Val.str uid)]
          (editPayload firstName lastName email phoneNumber dateOfBirth
            address registrationDate creditBalance rating verificationStatus
            preferredLanguage)
        pure ({ db with dwellers := upd.1 },
          if upd.2 ≠ [] then [Flash.success "City dweller updated successfully!"]
          else [Flash.warning "No changes were made."])

/-- The `delete_dweller` branch of `manage_dweller`: an unconditional
soft-delete update of `account_status` keyed on `user_id` — with no check
of the resident's rentals. -/
def deleteDwellerAction (db : Db) (form : Form) :
    Except PyExn (Db × List Flash) :=
  let uidv := formVal form "user_id"
  let upd := updateWhere db.dwellers [("user_id", uidv)]
    [("account_status", Val.str "inactive")]
  pure ({ db with dwellers := upd.1 },
    [Flash.success "City dweller removed successfully!"])

/-- The `POST /manage_dweller` handler: dispatch on the `action` field
inside `try`, `except ValueError` flashing `"Invalid data: ..."`,
`except Exception` flashing `"Unexpected error: ..."`. -/
def manage_dweller (db : Db) (form : Form) (salt vcode : String) :
    Db × List Flash :=
  let body : Except PyExn (Db × List Flash) := do
    match formGet form "action" with
    | none => throw (PyExn.valueError "No action specified")
    | some action =>
      if action = "" then throw (PyExn.valueError "No action specified")
      else if action = "add_dweller" then addDwellerAction db form salt vcode
      else if action = "edit_dweller" then editDwellerAction db form
      else if action = "delete_dweller" then deleteDwellerAction db form
      else pure (db, [])
  match body with
  | Except.ok r => r
  | Except.error (PyExn.valueError m) =>
      (db, [Flash.error ("Invalid data: " ++ m)])
  | Except.error (PyExn.badRequestKey _) =>
      (db, [Flash.error ("Unexpected error: " ++ badRequestMsg)])

/-- The first row with `id = b`, projected to its `status` field: "B's
status" in the store state. -/
def bikeStatus (db : Db) (b : String) : Option Val :=
  match selectWhere db.bicycles [("id", Val.str b)] with
  | [] => none
  | r :: _ => getField r "status"

theorem getField_setField_same (r : Rec) (k : String) (v : Val) :
    getField (setField r k v) k = some v := by
  induction r with
  | nil => simp [setField, getField]
  | cons p rest ih =>
      by_cases h : p.1 = k
      · simp [setField, getField, h]
      · simp [setField, getField, h, ih]

theorem getField_setField_ne (r : Rec) (k k' : String) (v : Val) (h : k ≠ k') :
    getField (setField r k v) k' = getField r k' := by
  induction r with
  | nil => simp [setField, getField, h]
  | cons p rest ih =>
      by_cases hp : p.1 = k
      · simp [setField, getField, hp, h, ih]
      · by_cases hp' : p.1 = k'
        · simp [setField, getField, hp, hp', Ne.symm h]
        · simp [setField, getField, hp, hp', ih]

theorem matchMonth_pad2 (m : Nat) (rest : List Char) (h1 : 1 ≤ m)
    (h2 : m ≤ 12) : matchMonth (pad2 m ++ rest) = some (m, rest) := by
  interval_cases m <;> rfl

theorem matchDay_pad2 (d : Nat) (rest : List Char) (h1 : 1 ≤ d)
    (h2 : d ≤ 31) : matchDay (pad2 d ++ rest) = some (d, rest) := by
  interval_cases d <;> rfl

theorem isDig_dChar (n : Nat) (h : n < 10) : isDig (dChar n) = true := by
  interval_cases n <;> rfl

theorem digitVal_dChar (n : Nat) (h : n < 10) : digitVal (dChar n) = n := by
  interval_cases n <;> rfl

theorem matchYear4_pad4 (y : Nat) (rest : List Char) (h : y ≤ 9999) :
    matchYear4 (pad4 y ++ rest) = some (y, rest) := by
  have h1 : y / 1000 < 10 := by omega
  have h2 : y / 100 % 10 < 10 := Nat.mod_lt _ (by omega)
  have h3 : y / 10 % 10 < 10 := Nat.mod_lt _ (by omega)
  have h4 : y % 10 < 10 := Nat.mod_lt _ (by omega)
  simp only [pad4, List.cons_append, List.nil_append, matchYear4,
    isDig_dChar _ h1, isDig_dChar _ h2, isDig_dChar _ h3, isDig_dChar _ h4,
    digitVal_dChar _ h1, digitVal_dChar _ h2, digitVal_dChar _ h3,
    digitVal_dChar _ h4, Bool.and_self, if_true, Option.some.injEq,
    Prod.mk.injEq]
  exact ⟨by omega, trivial⟩

theorem daysInMonth_le (y m : Nat) : daysInMonth y m ≤ 31 := by
  simp only [daysInMonth]
  split
  · split <;> omega
  · split <;> omega

theorem parseDisplayDate_format (y m d : Nat) (hm1 : 1 ≤ m) (hm2 : m ≤ 12)
    (hd1 : 1 ≤ d) (hd2 : d ≤ daysInMonth y m) (hy1 : 1 ≤ y) (hy2 : y ≤ 9999) :
    parseDisplayDate (formatDisplay ⟨y, m, d⟩) = some ⟨y, m, d⟩ := by
  have hd31 : d ≤ 31 := le_trans hd2 (daysInMonth_le y m)
  have e1 : matchMonth (pad2 m ++ '/' :: (pad2 d ++ '/' :: pad4 y))
      = some (m, '/' :: (pad2 d ++ '/' :: pad4 y)) := matchMonth_pad2 m _ hm1 hm2
  have e2 : matchDay (pad2 d ++ '/' :: pad4 y) = some (d, '/' :: pad4 y) :=
    matchDay_pad2 d _ hd1 hd31
  have e3 : matchYear4 (pad4 y) = some (y, []) := by
    have h := matchYear4_pad4 y [] hy2
    simpa using h
  have hdata : (formatDisplay ⟨y, m, d⟩).data
      = pad2 m ++ '/' :: (pad2 d ++ '/' :: pad4 y) := rfl
  simp only [parseDisplayDate, hdata, e1, matchLit, if_pos, e2, e3]
  simp only [if_pos (And.intro hy1 hd2)]

theorem parseIsoDate_format (y m d : Nat) (hm1 : 1 ≤ m) (hm2 : m ≤ 12)
    (hd1 : 1 ≤ d) (hd2 : d ≤ daysInMonth y m) (hy1 : 1 ≤ y) (hy2 : y ≤ 9999) :
    parseIsoDate (formatIso ⟨y, m, d⟩) = some ⟨y, m, d⟩ := by
  have hd31 : d ≤ 31 := le_trans hd2 (daysInMonth_le y m)
  have e1 : matchYear4 (pad4 y ++ '-' :: (pad2 m ++ '-' :: pad2 d))
      = some (y, '-' :: (pad2 m ++ '-' :: pad2 d)) := matchYear4_pad4 y _ hy2
  have e2 : matchMonth (pad2 m ++ '-' :: pad2 d)
      = some (m, '-' :: pad2 d) := matchMonth_pad2 m _ hm1 hm2
  have e3 : matchDay (pad2 d) = some (d, []) := by
    have h := matchDay_pad2 d [] hd1 hd31
    simpa using h
  have hdata : (formatIso ⟨y, m, d⟩).data
      = pad4 y ++ '-' :: (pad2 m ++ '-' :: pad2 d) := rfl
  simp only [parseIsoDate, hdata, e1, matchLit, if_pos, e2, e3]
  simp only [if_pos (And.intro hy1 hd2)]

/-- C2: for every valid MM/DD/YYYY date string (zero-padded two-digit month
and day, four-digit year, a real calendar date), converting to storage form
(`toStorage`, MM/DD/YYYY to YYYY-MM-DD) and back to display form
(`toDisplay`, YYYY-MM-DD to MM/DD/YYYY) yields the original string. -/
theorem toStorage_toDisplay_roundtrip (y m d : Nat) (hm : 1 ≤ m ∧ m ≤ 12)
    (hd : 1 ≤ d ∧ d ≤ daysInMonth y m) (hy : 1 ≤ y ∧ y ≤ 9999) :
    (toStorage (formatDisplay ⟨y, m, d⟩)).bind toDisplay
      = some (formatDisplay ⟨y, m, d⟩) := by
  rw [toStorage,
    parseDisplayDate_format y m d hm.1 hm.2 hd.1 hd.2 hy.1 hy.2]
  simp only [Option.map_some', Option.some_bind]
  rw [toDisplay, parseIsoDate_format y m d hm.1 hm.2 hd.1 hd.2 hy.1 hy.2]
  rfl

/-- C2 witness: the roundtrip at the concrete date 01/15/2024. -/
theorem toStorage_toDisplay_roundtrip_witness :
    (toStorage (formatDisplay ⟨2024, 1, 15⟩)).bind toDisplay
      = some (formatDisplay ⟨2024, 1, 15⟩) :=
  toStorage_toDisplay_roundtrip 2024 1 15 (by decide) (by decide) (by decide)

theorem digestNat_lt (hv : Hash8) : digestNat hv < 2 ^ 256 := by
  have ha : hv.a % 4294967296 < 4294967296 := Nat.mod_lt _ (by norm_num)
  have hb : hv.b % 4294967296 < 4294967296 := Nat.mod_lt _ (by norm_num)
  have hc : hv.c % 4294967296 < 4294967296 := Nat.mod_lt _ (by norm_num)
  have hd : hv.d % 4294967296 < 4294967296 := Nat.mod_lt _ (by norm_num)
  have he : hv.e % 4294967296 < 4294967296 := Nat.mod_lt _ (by norm_num)
  have hf : hv.f % 4294967296 < 4294967296 := Nat.mod_lt _ (by norm_num)
  have hg : hv.g % 4294967296 < 4294967296 := Nat.mod_lt _ (by norm_num)
  have hh : hv.h % 4294967296 < 4294967296 := Nat.mod_lt _ (by norm_num)
  unfold digestNat
  norm_num at ha hb hc hd he hf hg hh ⊢
  omega

theorem sha256Nat_lt (msg : List Nat) : sha256Nat msg < 2 ^ 256 :=
  digestNat_lt _

theorem saltOf_inj {n m : Nat} (h : saltOf n = saltOf m) : n = m := by
  have hlen := congrArg String.length h
  simpa [saltOf, String.length] using hlen

/-- C6 counterexample: it is not true that, for the same password, any two
distinct salts yield distinct digests — `hashPassword` maps the infinitely
many salts into the finite set of 256-bit digests, so some two distinct
salts collide. -/
theorem hashPassword_not_injective_on_salts :
    ¬ ∀ (p s1 s2 : String), s1 ≠ s2 → hashPassword p s1 ≠ hashPassword p s2 := by
  intro hall
  obtain ⟨n, m, hnm, heq⟩ := Finite.exists_ne_map_eq_of_infinite
    (fun n : ℕ =>
      (⟨sha256Nat (strBytes ("pw" ++ saltOf n)), sha256Nat_lt _⟩ : Fin (2 ^ 256)))
  have hsalts : saltOf n ≠ saltOf m := fun hc => hnm (saltOf_inj hc)
  have hdig : sha256Nat (strBytes ("pw" ++ saltOf n))
      = sha256Nat (strBytes ("pw" ++ saltOf m)) := congrArg Fin.val heq
  exact hall "pw" (saltOf n) (saltOf m) hsalts
    (by simp only [hashPassword, sha256hex, hdig])

/-- C6 amended: the credential hash is deterministic — the digest is a pure
function of the UTF-8 bytes of `password ++ salt` — and for the same
password two distinct salts always produce distinct hash inputs, so the
digests differ unless SHA-256 itself collides on those two inputs (which
cannot be ruled out in principle, but no such collision is known). -/
theorem hashPassword_deterministic_and_inputs_distinct (p s1 s2 : String)
    (h : s1 ≠ s2) :
    hashPassword p s1 = sha256hex (strBytes (p ++ s1)) ∧ p ++ s1 ≠ p ++ s2 := by
  refine ⟨rfl, fun hc => h ?_⟩
  have hdata := congrArg String.data hc
  simp only [String.data_append] at hdata
  exact String.ext (List.append_cancel_left hdata)

/-- C6 witness: determinism and input distinctness at concrete strings. -/
theorem hashPassword_deterministic_witness :
    hashPassword "pw" "a" = sha256hex (strBytes ("pw" ++ "a")) ∧
      "pw" ++ "a" ≠ "pw" ++ "b" :=
  hashPassword_deterministic_and_inputs_distinct "pw" "a" "b" (by decide)

theorem getField_applyPayload_ne (p : Rec) (r : Rec) (k : String)
    (h : ∀ kv ∈ p, kv.1 ≠ k) :
    getField (applyPayload p r) k = getField r k := by
  induction p generalizing r with
  | nil => rfl
  | cons kv rest ih =>
      have step : applyPayload (kv :: rest) r
          = applyPayload rest (setField r kv.1 kv.2) := rfl
      rw [step, ih _ (fun x hx => h x (List.mem_cons_of_mem kv hx)),
        getField_setField_ne _ _ _ _ (h kv (List.mem_cons_self kv rest))]

theorem length_updateWhere (rows : List Rec) (conds : List (String × Val))
    (p : Rec) : ((updateWhere rows conds p).1).length = rows.length := by
  simp [updateWhere]

theorem map_getField_updateWhere (rows : List Rec)
    (conds : List (String × Val)) (p : Rec) (k : String)
    (h : ∀ kv ∈ p, kv.1 ≠ k) :
    ((updateWhere rows conds p).1).map (fun r => getField r k)
      = rows.map (fun r => getField r k) := by
  show (rows.map _).map _ = _
  rw [List.map_map]
  refine List.map_congr_left (fun r _ => ?_)
  show getField (if matchesConds r conds = true then applyPayload p r else r) k
      = getField r k
  by_cases hm : matchesConds r conds = true
  · rw [if_pos hm, getField_applyPayload_ne p r k h]
  · rw [if_neg hm]

/-- C1 counterexample: a resident with an active rental, deleted through
the `delete_dweller` action of `/manage_dweller`: the handler performs the
soft-delete mutation (`account_status` becomes `inactive`) and flashes
success — no Blocked condition, despite the active rental. -/
theorem manage_delete_ignores_active_rentals :
    (selectWhere
        (Db.mk [[("user_id", Val.str "u1"), ("account_status", Val.str "active")]]
          [[("dweller_id", Val.str "u1"), ("status", Val.str "active"),
            ("bicycle_id", Val.str "b1")]] []).rentals
        [("dweller_id", Val.str "u1"), ("status", Val.str "active")] ≠ []) ∧
    manage_dweller
        (Db.mk [[("user_id", Val.str "u1"), ("account_status", Val.str "active")]]
          [[("dweller_id", Val.str "u1"), ("status", Val.str "active"),
            ("bicycle_id", Val.str "b1")]] [])
        [("action", "delete_dweller"), ("user_id", "u1")] "s" "c"
      = (Db.mk [[("user_id", Val.str "u1"), ("account_status", Val.str "inactive")]]
          [[("dweller_id", Val.str "u1"), ("status", Val.str "active"),
            ("bicycle_id", Val.str "b1")]] [],
         [Flash.success "City dweller removed successfully!"]) := by
  decide

/-- C1 amended: the active-rental guard exists only on the `/delete/{id}`
entry point — for every resident id with at least one active rental that
handler fails with the Blocked message and performs no mutation — while the
`delete_dweller` action of `/manage_dweller` performs the
`account_status = 'inactive'` update unconditionally, with no rental
check. -/
theorem delete_route_blocked_manage_delete_unconditional (db : Db)
    (i u s c : String)
    (h : selectWhere db.rentals
      [("dweller_id", Val.str i), ("status", Val.str "active")] ≠ []) :
    delete_dweller db i
        = (db, [Flash.error "Cannot remove dweller with active rentals."]) ∧
    (manage_dweller db [("action", "delete_dweller"), ("user_id", u)] s c).1.dwellers
      = (updateWhere db.dwellers [("user_id", Val.str u)]
          [("account_status", Val.str "inactive")]).1 := by
  constructor
  · simp only [delete_dweller, if_pos h]
  · rfl

/-- C1 witness: the amended theorem at a one-resident, one-active-rental
store. -/
theorem delete_route_blocked_witness :
    delete_dweller
        (Db.mk [[("id", Val.str "u1")]]
          [[("dweller_id", Val.str "u1"), ("status", Val.str "active")]] []) "u1"
      = (Db.mk [[("id", Val.str "u1")]]
          [[("dweller_id", Val.str "u1"), ("status", Val.str "active")]] [],
         [Flash.error "Cannot remove dweller with active rentals."]) ∧
    (manage_dweller
        (Db.mk [[("id", Val.str "u1")]]
          [[("dweller_id", Val.str "u1"), ("status", Val.str "active")]] [])
        [("action", "delete_dweller"), ("user_id", "u1")] "s" "c").1.dwellers
      = (updateWhere [[("id", Val.str "u1")]] [("user_id", Val.str "u1")]
          [("account_status", Val.str "inactive")]).1 :=
  delete_route_blocked_manage_delete_unconditional
    (Db.mk [[("id", Val.str "u1")]]
      [[("dweller_id", Val.str "u1"), ("status", Val.str "active")]] [])
    "u1" "u1" "s" "c" (by decide)

/-- C8 counterexample: the `/delete/{id}` handler soft-deletes by setting
the boolean `active` column, not the `account_status` field — after the
delete the record's `account_status` is still `'active'`. -/
theorem delete_route_does_not_set_account_status :
    (delete_dweller
        (Db.mk [[("id", Val.str "d1"), ("account_status", Val.str "active")]] [] [])
        "d1").1.dwellers
      = [[("id", Val.str "d1"), ("account_status", Val.str "active"),
          ("active", Val.bool false)]] ∧
    getField [("id", Val.str "d1"), ("account_status", Val.str "active"),
        ("active", Val.bool false)] "account_status" ≠ some (Val.str "inactive") := by
  decide

/-- C8 amended: neither delete entry point physically removes a resident —
both leave the number of rows and every row's identifier field unchanged,
so the record remains queryable by its identifier — but only the
`delete_dweller` action of `/manage_dweller` sets `account_status` to
`inactive`; the `/delete/{id}` handler instead sets the boolean `active`
column to `False` (when no active rental blocks it). -/
theorem soft_delete_never_removes (db : Db) (i u s c : String) :
    (delete_dweller db i).1.dwellers.length = db.dwellers.length ∧
    (delete_dweller db i).1.dwellers.map (fun r => getField r "id")
      = db.dwellers.map (fun r => getField r "id") ∧
    (delete_dweller db i).1.dwellers
      = (if selectWhere db.rentals
            [("dweller_id", Val.str i), ("status", Val.str "active")] ≠ []
         then db.dwellers
         else (updateWhere db.dwellers [("id", Val.str i)]
           [("active", Val.bool false)]).1) ∧
    (manage_dweller db [("action", "delete_dweller"), ("user_id", u)] s c).1.dwellers.length
      = db.dwellers.length ∧
    (manage_dweller db [("action", "delete_dweller"), ("user_id", u)] s c).1.dwellers.map
        (fun r => getField r "user_id")
      = db.dwellers.map (fun r => getField r "user_id") ∧
    (manage_dweller db [("action", "delete_dweller"), ("user_id", u)] s c).1.dwellers
      = (updateWhere db.dwellers [("user_id", Val.str u)]
          [("account_status", Val.str "inactive")]).1 := by
  have hmanage :
      (manage_dweller db [("action", "delete_dweller"), ("user_id", u)] s c).1.dwellers
        = (updateWhere db.dwellers [("user_id", Val.str u)]
            [("account_status", Val.str "inactive")]).1 := rfl
  have hframe1 : ∀ kv ∈ ([(("active" : String), Val.bool false)] : Rec),
      kv.1 ≠ "id" := by
    intro kv hkv
    rcases List.mem_singleton.mp hkv with rfl
    decide
  have hframe2 : ∀ kv ∈ ([(("account_status" : String), Val.str "inactive")] : Rec),
      kv.1 ≠ "user_id" := by
    intro kv hkv
    rcases List.mem_singleton.mp hkv with rfl
    decide
  by_cases hb : selectWhere db.rentals
      [("dweller_id", Val.str i), ("status", Val.str "active")] ≠ []
  · refine ⟨?_, ?_, ?_, ?_, ?_, hmanage⟩
    · simp only [delete_dweller, if_pos hb]
    · simp only [delete_dweller, if_pos hb]
    · simp only [delete_dweller, if_pos hb, hb, if_true]
    · rw [hmanage, length_updateWhere]
    · rw [hmanage, map_getField_updateWhere _ _ _ _ hframe2]
  · refine ⟨?_, ?_, ?_, ?_, ?_, hmanage⟩
    · simp only [delete_dweller, if_neg hb, length_updateWhere]
    · simp only [delete_dweller, if_neg hb]
      exact map_getField_updateWhere _ _ _ _ hframe1
    · simp only [delete_dweller, if_neg hb, hb, if_false]
    · rw [hmanage, length_updateWhere]
    · rw [hmanage, map_getField_updateWhere _ _ _ _ hframe2]

/-- C10: the start action inserts a rental with `status = 'active'` and
issues the bicycle `in_use` update unconditionally — no precondition on the
bicycle's current status or on the resident's existing rentals — and two
successive starts for the same (resident, bicycle) pair append two active
rentals for that pair. -/
theorem start_rental_unconditional (db : Db) (R B lat lng now now2 : String) :
    (manage_rental db R
        [("action", "start"), ("bike_id", B), ("lat", lat), ("lng", lng)] now).1.rentals
      = db.rentals ++
        [[("dweller_id", Val.str R), ("bicycle_id", Val.str B),
          ("status", Val.str "active"), ("start_location_lat", Val.str lat),
          ("start_location_lng", Val.str lng)]] ∧
    (manage_rental db R
        [("action", "start"), ("bike_id", B), ("lat", lat), ("lng", lng)] now).1.bicycles
      = (updateWhere db.bicycles [("id", Val.str B)]
          [("status", Val.str "in_use")]).1 ∧
    (selectWhere
        ((manage_rental
          ((manage_rental db R
            [("action", "start"), ("bike_id", B), ("lat", lat), ("lng", lng)] now).1) R
          [("action", "start"), ("bike_id", B), ("lat", lat), ("lng", lng)] now2).1).rentals
        [("dweller_id", Val.str R), ("bicycle_id", Val.str B),
         ("status", Val.str "active")]).length
      = (selectWhere db.rentals
          [("dweller_id", Val.str R), ("bicycle_id", Val.str B),
           ("status", Val.str "active")]).length + 2 := by
  refine ⟨rfl, rfl, ?_⟩
  have hmatch : matchesConds
      [(("dweller_id" : String), Val.str R), ("bicycle_id", Val.str B),
       ("status", Val.str "active"), ("start_location_lat", Val.str lat),
       ("start_location_lng", Val.str lng)]
      [("dweller_id", Val.str R), ("bicycle_id", Val.str B),
       ("status", Val.str "active")] = true := by
    simp [matchesConds, getField]
  show (List.filter _ ((db.rentals ++ [_]) ++ [_])).length = _
  rw [List.filter_append, List.filter_append]
  simp only [List.length_append, selectWhere]
  have h1 : formVal [("action", "start"), ("bike_id", B), ("lat", lat),
      ("lng", lng)] "bike_id" = Val.str B := rfl
  have h2 : formVal [("action", "start"), ("bike_id", B), ("lat", lat),
      ("lng", lng)] "lat" = Val.str lat := rfl
  have h3 : formVal [("action", "start"), ("bike_id", B), ("lat", lat),
      ("lng", lng)] "lng" = Val.str lng := rfl
  simp only [h1, h2, h3]
  simp [List.filter_cons, hmatch]

theorem matchesConds_setField_ne (r : Rec) (k : String) (v : Val)
    (conds : List (String × Val)) (h : ∀ kv ∈ conds, kv.1 ≠ k) :
    matchesConds (setField r k v) conds = matchesConds r conds := by
  induction conds with
  | nil => rfl
  | cons kv rest ih =>
      simp only [matchesConds, List.all_cons] at *
      rw [getField_setField_ne r k kv.1 v
          (Ne.symm (h kv (List.mem_cons_self kv rest))),
        ih (fun x hx => h x (List.mem_cons_of_mem kv hx))]

theorem selectWhere_update_status (rows : List Rec) (w : Val) (v : Val) :
    selectWhere (updateWhere rows [("id", w)] [("status", v)]).1 [("id", w)]
      = (selectWhere rows [("id", w)]).map (fun r => setField r "status" v) := by
  show List.filter _ (List.map _ rows) = _
  rw [List.filter_map]
  have hpt : ∀ r : Rec,
      ((fun r => matchesConds r [("id", w)]) ∘
        (fun r => if matchesConds r [("id", w)] = true
          then applyPayload [("status", v)] r else r)) r
        = matchesConds r [("id", w)] := by
    intro r
    simp only [Function.comp_apply]
    by_cases hm : matchesConds r [("id", w)] = true
    · rw [if_pos hm]
      show matchesConds (setField r "status" v) _ = _
      rw [matchesConds_setField_ne r "status" v _ ?_]
      intro kv hkv
      rcases List.mem_singleton.mp hkv with rfl
      show ("id" : String) ≠ "status"
      decide
    · rw [if_neg hm]
  rw [List.filter_congr (fun r _ => hpt r)]
  refine List.map_congr_left (fun r hr => ?_)
  have hm : matchesConds r [("id", w)] = true := (List.mem_filter.mp hr).2
  show (if matchesConds r [("id", w)] = true
      then applyPayload [("status", v)] r else r) = _
  rw [if_pos hm]
  rfl

theorem bikeStatus_after_update (db2 : Db) (rows : List Rec) (b : String)
    (v : Val)
    (hb2 : db2.bicycles = (updateWhere rows [("id", Val.str b)]
      [("status", v)]).1)
    (h : selectWhere rows [("id", Val.str b)] ≠ []) :
    bikeStatus db2 b = some v := by
  simp only [bikeStatus, hb2, selectWhere_update_status]
  cases hsel : selectWhere rows [("id", Val.str b)] with
  | nil => exact absurd hsel h
  | cons r t => simp [getField_setField_same]

theorem selectWhere_update_status_ne_nil (rows : List Rec) (b : String)
    (v : Val) (h : selectWhere rows [("id", Val.str b)] ≠ []) :
    selectWhere (updateWhere rows [("id", Val.str b)] [("status", v)]).1
      [("id", Val.str b)] ≠ [] := by
  rw [selectWhere_update_status]
  intro hc
  exact h (List.map_eq_nil_iff.mp hc)

theorem manage_rental_end_eq (dbx : Db) (R lat2 lng2 now2 : String) :
    manage_rental dbx R [("action", "end"), ("lat", lat2), ("lng", lng2)] now2
      = (match (updateWhere dbx.rentals
            [("dweller_id", Val.str R), ("status", Val.str "active")]
            [("status", Val.str "completed"), ("end_time", Val.str now2),
             ("end_location_lat", Val.str lat2),
             ("end_location_lng", Val.str lng2)]).2 with
         | affected0 :: _ =>
             (match getField affected0 "bicycle_id" with
              | some bid =>
                  ({ dbx with
                     rentals := (updateWhere dbx.rentals
                       [("dweller_id", Val.str R), ("status", Val.str "active")]
                       [("status", Val.str "completed"),
                        ("end_time", Val.str now2),
                        ("end_location_lat", Val.str lat2),
                        ("end_location_lng", Val.str lng2)]).1,
                     bicycles := (updateWhere dbx.bicycles [("id", bid)]
                       [("status", Val.str "available")]).1 },
                   [Flash.success "Rental ended successfully!"])
              | none =>
                  ({ dbx with
                     rentals := (updateWhere dbx.rentals
                       [("dweller_id", Val.str R), ("status", Val.str "active")]
                       [("status", Val.str "completed"),
                        ("end_time", Val.str now2),
                        ("end_location_lat", Val.str lat2),
                        ("end_location_lng", Val.str lng2)]).1 },
                   [Flash.error ("Error managing rental: " ++ "bicycle_id")]))
         | [] =>
             ({ dbx with
                rentals := (updateWhere dbx.rentals
                  [("dweller_id", Val.str R), ("status", Val.str "active")]
                  [("status", Val.str "completed"), ("end_time", Val.str now2),
                   ("end_location_lat", Val.str lat2),
                   ("end_location_lng", Val.str lng2)]).1 },
              ([] : List Flash))) := rfl

/-- C7 amended: starting a rental of bicycle B by resident R sets B's
status to `in_use`, and stopping R's rental then sets it to `available`;
when B's status before the start was `available` and R had no other active
rental, the status before the start equals the status after the stop.  (The
unconditional equality of the original claim fails: the stop always leaves
`available`, whatever the status before the start was.) -/
theorem rental_start_then_stop_status (db : Db)
    (R B lat lng lat2 lng2 now now2 : String)
    (hB : bikeStatus db B = some (Val.str "available"))
    (hR : selectWhere db.rentals
      [("dweller_id", Val.str R), ("status", Val.str "active")] = []) :
    bikeStatus (manage_rental db R
        [("action", "start"), ("bike_id", B), ("lat", lat), ("lng", lng)]
        now).1 B = some (Val.str "in_use") ∧
    bikeStatus (manage_rental (manage_rental db R
          [("action", "start"), ("bike_id", B), ("lat", lat), ("lng", lng)]
          now).1 R
        [("action", "end"), ("lat", lat2), ("lng", lng2)] now2).1 B
      = some (Val.str "available") ∧
    bikeStatus (manage_rental (manage_rental db R
          [("action", "start"), ("bike_id", B), ("lat", lat), ("lng", lng)]
          now).1 R
        [("action", "end"), ("lat", lat2), ("lng", lng2)] now2).1 B
      = bikeStatus db B := by
  have hne : selectWhere db.bicycles [("id", Val.str B)] ≠ [] := by
    intro hc
    have hnone : bikeStatus db B = none := by
      simp only [bikeStatus, hc]
    rw [hnone] at hB
    cases hB
  have hdb1b : (manage_rental db R
      [("action", "start"), ("bike_id", B), ("lat", lat), ("lng", lng)]
      now).1.bicycles
      = (updateWhere db.bicycles [("id", Val.str B)]
        [("status", Val.str "in_use")]).1 := rfl
  have hdb1r : (manage_rental db R
      [("action", "start"), ("bike_id", B), ("lat", lat), ("lng", lng)]
      now).1.rentals
      = db.rentals ++
        [[("dweller_id", Val.str R), ("bicycle_id", Val.str B),
          ("status", Val.str "active"), ("start_location_lat", Val.str lat),
          ("start_location_lng", Val.str lng)]] := rfl
  have hc1 : bikeStatus (manage_rental db R
      [("action", "start"), ("bike_id", B), ("lat", lat), ("lng", lng)]
      now).1 B = some (Val.str "in_use") :=
    bikeStatus_after_update _ db.bicycles B _ hdb1b hne
  have hmatchNew : matchesConds
      [(("dweller_id" : String), Val.str R), ("bicycle_id", Val.str B),
       ("status", Val.str "active"), ("start_location_lat", Val.str lat),
       ("start_location_lng", Val.str lng)]
      [("dweller_id", Val.str R), ("status", Val.str "active")] = true := by
    simp [matchesConds, getField]
  have hRf : List.filter
      (fun r => matchesConds r
        [("dweller_id", Val.str R), ("status", Val.str "active")])
      db.rentals = [] := hR
  have hupd2 : (updateWhere (manage_rental db R
        [("action", "start"), ("bike_id", B), ("lat", lat), ("lng", lng)]
        now).1.rentals
      [("dweller_id", Val.str R), ("status", Val.str "active")]
      [("status", Val.str "completed"), ("end_time", Val.str now2),
       ("end_location_lat", Val.str lat2),
       ("end_location_lng", Val.str lng2)]).2
      = [applyPayload
          [("status", Val.str "completed"), ("end_time", Val.str now2),
           ("end_location_lat", Val.str lat2),
           ("end_location_lng", Val.str lng2)]
          [("dweller_id", Val.str R), ("bicycle_id", Val.str B),
           ("status", Val.str "active"), ("start_location_lat", Val.str lat),
           ("start_location_lng", Val.str lng)]] := by
    rw [hdb1r]
    show (List.filter _ (db.rentals ++ [_])).map _ = _
    rw [List.filter_append, hRf]
    simp [List.filter_cons, hmatchNew]
  have hbid : getField (applyPayload
      [(("status" : String), Val.str "completed"), ("end_time", Val.str now2),
       ("end_location_lat", Val.str lat2),
       ("end_location_lng", Val.str lng2)]
      [("dweller_id", Val.str R), ("bicycle_id", Val.str B),
       ("status", Val.str "active"), ("start_location_lat", Val.str lat),
       ("start_location_lng", Val.str lng)]) "bicycle_id"
      = some (Val.str B) := by
    rw [getField_applyPayload_ne]
    · rfl
    · intro kv hkv
      simp only [List.mem_cons, List.not_mem_nil, or_false] at hkv
      rcases hkv with rfl | rfl | rfl | rfl <;> simp
  have hdb2b : (manage_rental (manage_rental db R
        [("action", "start"), ("bike_id", B), ("lat", lat), ("lng", lng)]
        now).1 R
      [("action", "end"), ("lat", lat2), ("lng", lng2)] now2).1.bicycles
      = (updateWhere (manage_rental db R
          [("action", "start"), ("bike_id", B), ("lat", lat), ("lng", lng)]
          now).1.bicycles [("id", Val.str B)]
          [("status", Val.str "available")]).1 := by
    rw [manage_rental_end_eq, hupd2]
    simp only [hbid]
  have hne1 : selectWhere (manage_rental db R
      [("action", "start"), ("bike_id", B), ("lat", lat), ("lng", lng)]
      now).1.bicycles [("id", Val.str B)] ≠ [] := by
    rw [hdb1b]
    exact selectWhere_update_status_ne_nil db.bicycles B _ hne
  have hc2 : bikeStatus (manage_rental (manage_rental db R
        [("action", "start"), ("bike_id", B), ("lat", lat), ("lng", lng)]
        now).1 R
      [("action", "end"), ("lat", lat2), ("lng", lng2)] now2).1 B
      = some (Val.str "available") :=
    bikeStatus_after_update _ _ B _ hdb2b hne1
  exact ⟨hc1, hc2, by rw [hc2, hB]⟩

/-- C7 counterexample: when bicycle b1 is `in_use` before the start
(nothing prevents starting a rental then), its status after the
start-then-stop sequence is `available`, which differs from its status
before the start — refuting the unconditional "status before start equals
status after stop". -/
theorem rental_status_before_after_cex :
    bikeStatus (Db.mk [] []
        [[("id", Val.str "b1"), ("status", Val.str "in_use")]]) "b1"
      = some (Val.str "in_use") ∧
    bikeStatus (manage_rental (manage_rental (Db.mk [] []
          [[("id", Val.str "b1"), ("status", Val.str "in_use")]]) "r1"
        [("action", "start"), ("bike_id", "b1"), ("lat", "1"), ("lng", "2")]
        "t1").1 "r1"
        [("action", "end"), ("lat", "3"), ("lng", "4")] "t2").1 "b1"
      = some (Val.str "available") ∧
    bikeStatus (manage_rental (manage_rental (Db.mk [] []
          [[("id", Val.str "b1"), ("status", Val.str "in_use")]]) "r1"
        [("action", "start"), ("bike_id", "b1"), ("lat", "1"), ("lng", "2")]
        "t1").1 "r1"
        [("action", "end"), ("lat", "3"), ("lng", "4")] "t2").1 "b1"
      ≠ bikeStatus (Db.mk [] []
          [[("id", Val.str "b1"), ("status", Val.str "in_use")]]) "b1" := by
  decide

/-- C7 witness: the amended start/stop status theorem at a concrete
one-bicycle store with no rentals. -/
theorem rental_start_then_stop_status_witness :
    bikeStatus (manage_rental (Db.mk [] []
        [[("id", Val.str "b1"), ("status", Val.str "available")]]) "r1"
        [("action", "start"), ("bike_id", "b1"), ("lat", "1"), ("lng", "2")]
        "t1").1 "b1" = some (Val.str "in_use") ∧
    bikeStatus (manage_rental (manage_rental (Db.mk [] []
          [[("id", Val.str "b1"), ("status", Val.str "available")]]) "r1"
        [("action", "start"), ("bike_id", "b1"), ("lat", "1"), ("lng", "2")]
        "t1").1 "r1"
        [("action", "end"), ("lat", "3"), ("lng", "4")] "t2").1 "b1"
      = some (Val.str "available") ∧
    bikeStatus (manage_rental (manage_rental (Db.mk [] []
          [[("id", Val.str "b1"), ("status", Val.str "available")]]) "r1"
        [("action", "start"), ("bike_id", "b1"), ("lat", "1"), ("lng", "2")]
        "t1").1 "r1"
        [("action", "end"), ("lat", "3"), ("lng", "4")] "t2").1 "b1"
      = bikeStatus (Db.mk [] []
          [[("id", Val.str "b1"), ("status", Val.str "available")]]) "b1" :=
  rental_start_then_stop_status
    (Db.mk [] [] [[("id", Val.str "b1"), ("status", Val.str "available")]])
    "r1" "b1" "1" "2" "3" "4" "t1" "t2" (by decide) (by decide)

theorem formatStepDate_ok_frame (r r2 : Rec) (key k : String)
    (h : formatStepDate r key = Except.ok r2) (hk : k ≠ key) :
    getField r2 k = getField r k := by
  simp only [formatStepDate] at h
  split at h
  · split at h
    · split at h
      · split at h
        · injection h with h2
          subst h2
          exact getField_setField_ne _ _ _ _ (Ne.symm hk)
        · cases h
      · cases h
    · injection h with h2
      subst h2
      rfl
  · injection h with h2
    subst h2
    rfl

/-- C3 counterexample: a listed resident whose `credit_balance` is the
string `"not-a-number"`: the record is kept, but the `except` handler
overwrites the well-formed `rating` field (4.5) with `0` as well — not
only the malformed field. -/
theorem list_format_clobbers_rating :
    list_dwellers (Db.mk
        [[("account_status", Val.str "active"), ("first_name", Val.str "A"),
          ("credit_balance", Val.str "not-a-number"),
          ("rating", Val.num 5)]] [] [])
      = [[("account_status", Val.str "active"), ("first_name", Val.str "A"),
          ("credit_balance", Val.num 0), ("rating", Val.num 0)]] ∧
    (Val.num 0 : Val) ≠ Val.num 5 := by
  decide

/-- C3 amended: `listActive` never drops or reorders a record and never
raises — each returned record is the formatting of the corresponding
selected record — and a record whose `credit_balance` fails `float`
coercion (after its date fields formatted successfully) is returned with
BOTH `credit_balance` and `rating` reset to `0`; its fields other than the
two numeric and two date fields are unchanged. -/
theorem list_format_amended (db : Db) (i : Nat) (r ra rb : Rec) (k : String)
    (hrd : formatStepDate r "registration_date" = Except.ok ra)
    (hdob : formatStepDate ra "date_of_birth" = Except.ok rb)
    (hcb : pyFloat ((getField rb "credit_balance").getD (Val.num 0)) = none)
    (hk1 : k ≠ "credit_balance") (hk2 : k ≠ "rating")
    (hk3 : k ≠ "registration_date") (hk4 : k ≠ "date_of_birth") :
    (list_dwellers db).length
        = (selectWhere db.dwellers [("account_status", Val.str "active")]).length ∧
    (list_dwellers db)[i]?
        = ((selectWhere db.dwellers
            [("account_status", Val.str "active")])[i]?).map formatDweller ∧
    formatDweller r
        = setField (setField rb "credit_balance" (Val.num 0)) "rating"
            (Val.num 0) ∧
    getField (formatDweller r) "credit_balance" = some (Val.num 0) ∧
    getField (formatDweller r) "rating" = some (Val.num 0) ∧
    getField (formatDweller r) k = getField r k := by
  have hfd : formatDweller r
      = setField (setField rb "credit_balance" (Val.num 0)) "rating"
          (Val.num 0) := by
    simp only [formatDweller, bind, Except.bind, hrd, hdob, formatStepNum, hcb]
  refine ⟨List.length_map _ _, List.getElem?_map _ _ _, hfd, ?_, ?_, ?_⟩
  · rw [hfd, getField_setField_ne _ _ _ _ (by decide),
      getField_setField_same]
  · rw [hfd, getField_setField_same]
  · rw [hfd, getField_setField_ne _ _ _ _ (Ne.symm hk2),
      getField_setField_ne _ _ _ _ (Ne.symm hk1),
      formatStepDate_ok_frame ra rb "date_of_birth" k hdob hk4,
      formatStepDate_ok_frame r ra "registration_date" k hrd hk3]

/-- C3 witness: the amended theorem at a concrete one-record batch whose
`credit_balance` is `"not-a-number"`. -/
theorem list_format_amended_witness :
    (list_dwellers (Db.mk
        [[("account_status", Val.str "active"),
          ("registration_date", Val.str "1990-05-20"),
          ("credit_balance", Val.str "not-a-number"),
          ("rating", Val.num 5), ("email", Val.str "x")]] [] [])).length
        = (selectWhere (Db.mk
            [[("account_status", Val.str "active"),
              ("registration_date", Val.str "1990-05-20"),
              ("credit_balance", Val.str "not-a-number"),
              ("rating", Val.num 5), ("email", Val.str "x")]] [] []).dwellers
            [("account_status", Val.str "active")]).length ∧
    (list_dwellers (Db.mk
        [[("account_status", Val.str "active"),
          ("registration_date", Val.str "1990-05-20"),
          ("credit_balance", Val.str "not-a-number"),
          ("rating", Val.num 5), ("email", Val.str "x")]] [] []))[0]?
        = ((selectWhere (Db.mk
            [[("account_status", Val.str "active"),
              ("registration_date", Val.str "1990-05-20"),
              ("credit_balance", Val.str "not-a-number"),
              ("rating", Val.num 5), ("email", Val.str "x")]] [] []).dwellers
            [("account_status", Val.str "active")])[0]?).map formatDweller ∧
    formatDweller
        [("account_status", Val.str "active"),
         ("registration_date", Val.str "1990-05-20"),
         ("credit_balance", Val.str "not-a-number"),
         ("rating", Val.num 5), ("email", Val.str "x")]
      = setField (setField
          [("account_status", Val.str "active"),
           ("registration_date", Val.str "05/20/1990"),
           ("credit_balance", Val.str "not-a-number"),
           ("rating", Val.num 5), ("email", Val.str "x")]
          "credit_balance" (Val.num 0)) "rating" (Val.num 0) ∧
    getField (formatDweller
        [("account_status", Val.str "active"),
         ("registration_date", Val.str "1990-05-20"),
         ("credit_balance", Val.str "not-a-number"),
         ("rating", Val.num 5), ("email", Val.str "x")]) "credit_balance"
      = some (Val.num 0) ∧
    getField (formatDweller
        [("account_status", Val.str "active"),
         ("registration_date", Val.str "1990-05-20"),
         ("credit_balance", Val.str "not-a-number"),
         ("rating", Val.num 5), ("email", Val.str "x")]) "rating"
      = some (Val.num 0) ∧
    getField (formatDweller
        [("account_status", Val.str "active"),
         ("registration_date", Val.str "1990-05-20"),
         ("credit_balance", Val.str "not-a-number"),
         ("rating", Val.num 5), ("email", Val.str "x")]) "email"
      = getField
          [("account_status", Val.str "active"),
           ("registration_date", Val.str "1990-05-20"),
           ("credit_balance", Val.str "not-a-number"),
           ("rating", Val.num 5), ("email", Val.str "x")] "email" :=
  list_format_amended
    (Db.mk
      [[("account_status", Val.str "active"),
        ("registration_date", Val.str "1990-05-20"),
        ("credit_balance", Val.str "not-a-number"),
        ("rating", Val.num 5), ("email", Val.str "x")]] [] []) 0
    [("account_status", Val.str "active"),
     ("registration_date", Val.str "1990-05-20"),
     ("credit_balance", Val.str "not-a-number"),
     ("rating", Val.num 5), ("email", Val.str "x")]
    [("account_status", Val.str "active"),
     ("registration_date", Val.str "05/20/1990"),
     ("credit_balance", Val.str "not-a-number"),
     ("rating", Val.num 5), ("email", Val.str "x")]
    [("account_status", Val.str "active"),
     ("registration_date", Val.str "05/20/1990"),
     ("credit_balance", Val.str "not-a-number"),
     ("rating", Val.num 5), ("email", Val.str "x")]
    "email" (by rfl) (by rfl) (by rfl) (by decide) (by decide)
    (by decide) (by decide)

theorem map_proj4_updateWhere (rows : List Rec)
    (conds : List (String × Val)) (p : Rec)
    (h1 : ∀ kv ∈ p, kv.1 ≠ "password_hash")
    (h2 : ∀ kv ∈ p, kv.1 ≠ "salt")
    (h3 : ∀ kv ∈ p, kv.1 ≠ "account_status")
    (h4 : ∀ kv ∈ p, kv.1 ≠ "verification_code") :
    ((updateWhere rows conds p).1).map
        (fun r => (getField r "password_hash", getField r "salt",
          getField r "account_status", getField r "verification_code"))
      = rows.map (fun r => (getField r "password_hash", getField r "salt",
          getField r "account_status", getField r "verification_code")) := by
  show (rows.map _).map _ = _
  rw [List.map_map]
  refine List.map_congr_left (fun r _ => ?_)
  simp only [Function.comp_apply]
  by_cases hm : matchesConds r conds = true
  · rw [if_pos hm, getField_applyPayload_ne p r _ h1,
      getField_applyPayload_ne p r _ h2, getField_applyPayload_ne p r _ h3,
      getField_applyPayload_ne p r _ h4]
  · rw [if_neg hm]

theorem editPayload_protects (a1 a2 a3 a4 a5 a6 a7 : String) (q1 q2 : Rat)
    (a8 a9 k : String)
    (hk : k ∈ (["password_hash", "salt", "account_status",
      "verification_code"] : List String)) :
    ∀ kv ∈ editPayload a1 a2 a3 a4 a5 a6 a7 q1 q2 a8 a9, kv.1 ≠ k := by
  intro kv hkv
  simp only [editPayload, List.mem_cons, List.not_mem_nil, or_false] at hkv hk
  rcases hk with rfl | rfl | rfl | rfl <;>
    rcases hkv with rfl | rfl | rfl | rfl | rfl | rfl | rfl | rfl | rfl | rfl
      | rfl <;> simp

theorem editDwellerAction_frame (db : Db) (form : Form) (db2 : Db)
    (fl : List Flash)
    (h : editDwellerAction db form = Except.ok (db2, fl)) :
    db2.dwellers.map (fun r => (getField r "password_hash", getField r "salt",
      getField r "account_status", getField r "verification_code"))
      = db.dwellers.map (fun r => (getField r "password_hash",
        getField r "salt", getField r "account_status",
        getField r "verification_code")) := by
  simp only [editDwellerAction, bind, Except.bind, pure, Except.pure, throw,
    throwThe, MonadExceptOf.throw, formFloat] at h
  repeat' split at h
  all_goals
    first
    | exact Except.noConfusion h
    | (injection h with h2
       have hdb2 : _ = db2 := congrArg Prod.fst h2
       rw [← hdb2]
       try first
       | rfl
       | (exact map_proj4_updateWhere _ _ _
           (editPayload_protects _ _ _ _ _ _ _ _ _ _ _ _ (by decide))
           (editPayload_protects _ _ _ _ _ _ _ _ _ _ _ _ (by decide))
           (editPayload_protects _ _ _ _ _ _ _ _ _ _ _ _ (by decide))
           (editPayload_protects _ _ _ _ _ _ _ _ _ _ _ _ (by decide))))

/-- C9: for every edit submission processed by the `/manage_dweller` edit
action — whatever the rest of the form and whether the edit succeeds or
fails — every stored resident's `password_hash`, `salt`, `account_status`
and `verification_code` fields are left unchanged: the update payload never
contains these fields. -/
theorem edit_preserves_credentials (db : Db) (form : Form) (s c : String) :
    ((manage_dweller db (("action", "edit_dweller") :: form) s c).1).dwellers.map
        (fun r => (getField r "password_hash", getField r "salt",
          getField r "account_status", getField r "verification_code"))
      = db.dwellers.map (fun r => (getField r "password_hash",
          getField r "salt", getField r "account_status",
          getField r "verification_code")) := by
  have heq : manage_dweller db (("action", "edit_dweller") :: form) s c
      = (match editDwellerAction db (("action", "edit_dweller") :: form) with
         | Except.ok r => r
         | Except.error (PyExn.valueError m) =>
             (db, [Flash.error ("Invalid data: " ++ m)])
         | Except.error (PyExn.badRequestKey _) =>
             (db, [Flash.error ("Unexpected error: " ++ badRequestMsg)])) := rfl
  rw [heq]
  cases he : editDwellerAction db (("action", "edit_dweller") :: form) with
  | ok r =>
      exact editDwellerAction_frame db _ r.1 r.2 (by rw [he])
  | error e => cases e <;> rfl

/-- C4 counterexample: an edit submission with a valid user id, valid
dates, first and last name, but no email field: the handler fails with the
catch-all "Unexpected error" flash (the `BadRequestKeyError` of
`request.form['email']`), which does not name "email" — not with a
Validation failure — though no mutation occurs. -/
theorem edit_missing_email_cex :
    manage_dweller (Db.mk [[("user_id", Val.str "u1"),
        ("email", Val.str "old")]] [] [])
        [("action", "edit_dweller"), ("user_id", "u1"),
         ("registration_date", "01/15/2024"), ("date_of_birth", "05/20/1990"),
         ("first_name", "A"), ("last_name", "B")] "s" "c"
      = (Db.mk [[("user_id", Val.str "u1"), ("email", Val.str "old")]] [] [],
         [Flash.error ("Unexpected error: " ++ badRequestMsg)]) := by
  decide

/-- C4 amended: for every store state, an edit submission that omits the
email field (with user id present and valid dates) fails with the generic
"Unexpected error" flash of the catch-all handler — the missing-key fault
of `request.form['email']`, which does not name the field — and no
mutation of any stored resident record occurs. -/
theorem edit_missing_email_amended (db : Db) (u fn ln s c : String)
    (hu : ¬ u = "") :
    manage_dweller db
        [("action", "edit_dweller"), ("user_id", u),
         ("registration_date", "01/15/2024"), ("date_of_birth", "05/20/1990"),
         ("first_name", fn), ("last_name", ln)] s c
      = (db, [Flash.error ("Unexpected error: " ++ badRequestMsg)]) := by
  have hstep : editDwellerAction db
      [("action", "edit_dweller"), ("user_id", u),
       ("registration_date", "01/15/2024"), ("date_of_birth", "05/20/1990"),
       ("first_name", fn), ("last_name", ln)]
      = (if u = "" then Except.error (PyExn.valueError "User ID is required")
         else Except.error (PyExn.badRequestKey "email")) := rfl
  have heq : manage_dweller db
      [("action", "edit_dweller"), ("user_id", u),
       ("registration_date", "01/15/2024"), ("date_of_birth", "05/20/1990"),
       ("first_name", fn), ("last_name", ln)] s c
      = (match editDwellerAction db
          [("action", "edit_dweller"), ("user_id", u),
           ("registration_date", "01/15/2024"),
           ("date_of_birth", "05/20/1990"),
           ("first_name", fn), ("last_name", ln)] with
         | Except.ok r => r
         | Except.error (PyExn.valueError m) =>
             (db, [Flash.error ("Invalid data: " ++ m)])
         | Except.error (PyExn.badRequestKey _) =>
             (db, [Flash.error ("Unexpected error: " ++ badRequestMsg)])) := rfl
  rw [heq, hstep, if_neg hu]

/-- C4 witness: the amended missing-email theorem at a concrete store and
form. -/
theorem edit_missing_email_amended_witness :
    manage_dweller (Db.mk [] [] [])
        [("action", "edit_dweller"), ("user_id", "u1"),
         ("registration_date", "01/15/2024"), ("date_of_birth", "05/20/1990"),
         ("first_name", "A"), ("last_name", "B")] "s" "c"
      = (Db.mk [] [] [],
         [Flash.error ("Unexpected error: " ++ badRequestMsg)]) :=
  edit_missing_email_amended (Db.mk [] [] []) "u1" "A" "B" "s" "c"
    (by decide)

/-- C5 counterexample: an add submission with all six required fields
present and non-empty and valid dates, but without the `phone_number`
field (which the handler reads unconditionally and unvalidated): no record
is inserted and the failure is the catch-all "Unexpected error", not a
Validation error. -/
theorem add_missing_phone_number_cex :
    (requiredFields.all (fun fld =>
      !((formGet [("action", "add_dweller"), ("first_name", "A"),
          ("last_name", "B"), ("email", "e@x"), ("password", "pw"),
          ("registration_date", "01/15/2024"),
          ("date_of_birth", "05/20/1990")] fld).getD "" == "")) = true) ∧
    manage_dweller (Db.mk [] [] [])
        [("action", "add_dweller"), ("first_name", "A"), ("last_name", "B"),
         ("email", "e@x"), ("password", "pw"),
         ("registration_date", "01/15/2024"),
         ("date_of_birth", "05/20/1990")] "salt" "code"
      = (Db.mk [] [] [],
         [Flash.error ("Unexpected error: " ++ badRequestMsg)]) := by
  decide

/-- C5 amended: when the six required fields are present and non-empty,
the dates are valid MM/DD/YYYY, and the `phone_number` and `address`
fields (read unconditionally by the handler) are also present, the add
action inserts exactly one new resident record carrying the freshly
generated verification code, and — through the external store's column
defaults — `account_status = active`, `verification_status = pending`,
`credit_balance = 0` and `rating = 0`; when a required field (here: email)
is absent, it fails with a Validation error and inserts nothing. -/
theorem add_dweller_amended (db : Db) (fn ln em pw ph ad s c : String)
    (h1 : ¬ fn = "") (h2 : ¬ ln = "") (h3 : ¬ em = "") (h4 : ¬ pw = "") :
    (manage_dweller db
        [("action", "add_dweller"), ("first_name", fn), ("last_name", ln),
         ("email", em), ("password", pw),
         ("registration_date", "01/15/2024"),
         ("date_of_birth", "05/20/1990"), ("phone_number", ph),
         ("address", ad)] s c
      = (insertDweller db
          [("first_name", Val.str fn), ("last_name", Val.str ln),
           ("email", Val.str em), ("phone_number", Val.str ph),
           ("date_of_birth", Val.str "1990-05-20"), ("address", Val.str ad),
           ("registration_date", Val.str "2024-01-15"),
           ("password_hash", Val.str (hashPassword pw s)),
           ("salt", Val.str s), ("preferred_language", Val.str "en"),
           ("verification_code", Val.str ((c.take 6).toUpper))],
         [Flash.success "City dweller added successfully!"])) ∧
    getField (storeInsertDefaults
        [("first_name", Val.str fn), ("last_name", Val.str ln),
         ("email", Val.str em), ("phone_number", Val.str ph),
         ("date_of_birth", Val.str "1990-05-20"), ("address", Val.str ad),
         ("registration_date", Val.str "2024-01-15"),
         ("password_hash", Val.str (hashPassword pw s)),
         ("salt", Val.str s), ("preferred_language", Val.str "en"),
         ("verification_code", Val.str ((c.take 6).toUpper))])
        "account_status" = some (Val.str "active") ∧
    getField (storeInsertDefaults
        [("first_name", Val.str fn), ("last_name", Val.str ln),
         ("email", Val.str em), ("phone_number", Val.str ph),
         ("date_of_birth", Val.str "1990-05-20"), ("address", Val.str ad),
         ("registration_date", Val.str "2024-01-15"),
         ("password_hash", Val.str (hashPassword pw s)),
         ("salt", Val.str s), ("preferred_language", Val.str "en"),
         ("verification_code", Val.str ((c.take 6).toUpper))])
        "verification_status" = some (Val.str "pending") ∧
    getField (storeInsertDefaults
        [("first_name", Val.str fn), ("last_name", Val.str ln),
         ("email", Val.str em), ("phone_number", Val.str ph),
         ("date_of_birth", Val.str "1990-05-20"), ("address", Val.str ad),
         ("registration_date", Val.str "2024-01-15"),
         ("password_hash", Val.str (hashPassword pw s)),
         ("salt", Val.str s), ("preferred_language", Val.str "en"),
         ("verification_code", Val.str ((c.take 6).toUpper))])
        "credit_balance" = some (Val.num 0) ∧
    getField (storeInsertDefaults
        [("first_name", Val.str fn), ("last_name", Val.str ln),
         ("email", Val.str em), ("phone_number", Val.str ph),
         ("date_of_birth", Val.str "1990-05-20"), ("address", Val.str ad),
         ("registration_date", Val.str "2024-01-15"),
         ("password_hash", Val.str (hashPassword pw s)),
         ("salt", Val.str s), ("preferred_language", Val.str "en"),
         ("verification_code", Val.str ((c.take 6).toUpper))])
        "rating" = some (Val.num 0) ∧
    getField (storeInsertDefaults
        [("first_name", Val.str fn), ("last_name", Val.str ln),
         ("email", Val.str em), ("phone_number", Val.str ph),
         ("date_of_birth", Val.str "1990-05-20"), ("address", Val.str ad),
         ("registration_date", Val.str "2024-01-15"),
         ("password_hash", Val.str (hashPassword pw s)),
         ("salt", Val.str s), ("preferred_language", Val.str "en"),
         ("verification_code", Val.str ((c.take 6).toUpper))])
        "verification_code" = some (Val.str ((c.take 6).toUpper)) ∧
    (manage_dweller db
        [("action", "add_dweller"), ("first_name", fn), ("last_name", ln),
         ("password", pw), ("registration_date", "01/15/2024"),
         ("date_of_birth", "05/20/1990"), ("phone_number", ph),
         ("address", ad)] s c
      = (db, [Flash.error
          "Invalid data: Invalid data format: Missing required field: email"])) := by
  have hfind : requiredFields.find?
      (fun fld => (formGet
        [("action", "add_dweller"), ("first_name", fn), ("last_name", ln),
         ("email", em), ("password", pw),
         ("registration_date", "01/15/2024"),
         ("date_of_birth", "05/20/1990"), ("phone_number", ph),
         ("address", ad)] fld).getD "" = "") = none := by
    simp [requiredFields, formGet, h1, h2, h3, h4]
  have hfind2 : requiredFields.find?
      (fun fld => (formGet
        [("action", "add_dweller"), ("first_name", fn), ("last_name", ln),
         ("password", pw), ("registration_date", "01/15/2024"),
         ("date_of_birth", "05/20/1990"), ("phone_number", ph),
         ("address", ad)] fld).getD "" = "") = some "email" := by
    simp [requiredFields, formGet, h1, h2]
  have hbody : addDwellerAction db
      [("action", "add_dweller"), ("first_name", fn), ("last_name", ln),
       ("email", em), ("password", pw), ("registration_date", "01/15/2024"),
       ("date_of_birth", "05/20/1990"), ("phone_number", ph),
       ("address", ad)] s c
      = Except.ok (insertDweller db
          [("first_name", Val.str fn), ("last_name", Val.str ln),
           ("email", Val.str em), ("phone_number", Val.str ph),
           ("date_of_birth", Val.str "1990-05-20"), ("address", Val.str ad),
           ("registration_date", Val.str "2024-01-15"),
           ("password_hash", Val.str (hashPassword pw s)),
           ("salt", Val.str s), ("preferred_language", Val.str "en"),
           ("verification_code", Val.str ((c.take 6).toUpper))],
         [Flash.success "City dweller added successfully!"]) := by
    simp only [addDwellerAction, addDwellerBody, hfind]
    rfl
  have hbody2 : addDwellerAction db
      [("action", "add_dweller"), ("first_name", fn), ("last_name", ln),
       ("password", pw), ("registration_date", "01/15/2024"),
       ("date_of_birth", "05/20/1990"), ("phone_number", ph),
       ("address", ad)] s c
      = Except.error (PyExn.valueError
          ("Invalid data format: " ++ ("Missing required field: " ++ "email"))) := by
    simp only [addDwellerAction, addDwellerBody, hfind2]
  have hdisp : ∀ (form : Form),
      formGet form "action" = some "add_dweller" →
      manage_dweller db form s c
        = (match addDwellerAction db form s c with
           | Except.ok r => r
           | Except.error (PyExn.valueError m) =>
               (db, [Flash.error ("Invalid data: " ++ m)])
           | Except.error (PyExn.badRequestKey _) =>
               (db, [Flash.error ("Unexpected error: " ++ badRequestMsg)])) := by
    intro form hform
    simp only [manage_dweller, hform]
    rfl
  refine ⟨?_, rfl, rfl, rfl, rfl, rfl, ?_⟩
  · rw [hdisp [("action", "add_dweller"), ("first_name", fn),
      ("last_name", ln), ("email", em), ("password", pw),
      ("registration_date", "01/15/2024"), ("date_of_birth", "05/20/1990"),
      ("phone_number", ph), ("address", ad)] rfl, hbody]
  · rw [hdisp [("action", "add_dweller"), ("first_name", fn),
      ("last_name", ln), ("password", pw),
      ("registration_date", "01/15/2024"), ("date_of_birth", "05/20/1990"),
      ("phone_number", ph), ("address", ad)] rfl, hbody2]
    rfl

/-- C5 witness: the amended add theorem at concrete form values. -/
theorem add_dweller_amended_witness :
    (manage_dweller (Db.mk [] [] [])
        [("action", "add_dweller"), ("first_name", "A"), ("last_name", "B"),
         ("email", "e@x"), ("password", "pw"),
         ("registration_date", "01/15/2024"),
         ("date_of_birth", "05/20/1990"), ("phone_number", "123"),
         ("address", "addr")] "salt" "code123"
      = (insertDweller (Db.mk [] [] [])
          [("first_name", Val.str "A"), ("last_name", Val.str "B"),
           ("email", Val.str "e@x"), ("phone_number", Val.str "123"),
           ("date_of_birth", Val.str "1990-05-20"), ("address", Val.str "addr"),
           ("registration_date", Val.str "2024-01-15"),
           ("password_hash", Val.str (hashPassword "pw" "salt")),
           ("salt", Val.str "salt"), ("preferred_language", Val.str "en"),
           ("verification_code", Val.str (("code123".take 6).toUpper))],
         [Flash.success "City dweller added successfully!"])) ∧
    getField (storeInsertDefaults
        [("first_name", Val.str "A"), ("last_name", Val.str "B"),
         ("email", Val.str "e@x"), ("phone_number", Val.str "123"),
         ("date_of_birth", Val.str "1990-05-20"), ("address", Val.str "addr"),
         ("registration_date", Val.str "2024-01-15"),
         ("password_hash", Val.str (hashPassword "pw" "salt")),
         ("salt", Val.str "salt"), ("preferred_language", Val.str "en"),
         ("verification_code", Val.str (("code123".take 6).toUpper))])
        "account_status" = some (Val.str "active") ∧
    getField (storeInsertDefaults
        [("first_name", Val.str "A"), ("last_name", Val.str "B"),
         ("email", Val.str "e@x"), ("phone_number", Val.str "123"),
         ("date_of_birth", Val.str "1990-05-20"), ("address", Val.str "addr"),
         ("registration_date", Val.str "2024-01-15"),
         ("password_hash", Val.str (hashPassword "pw" "salt")),
         ("salt", Val.str "salt"), ("preferred_language", Val.str "en"),
         ("verification_code", Val.str (("code123".take 6).toUpper))])
        "verification_status" = some (Val.str "pending") ∧
    getField (storeInsertDefaults
        [("first_name", Val.str "A"), ("last_name", Val.str "B"),
         ("email", Val.str "e@x"), ("phone_number", Val.str "123"),
         ("date_of_birth", Val.str "1990-05-20"), ("address", Val.str "addr"),
         ("registration_date", Val.str "2024-01-15"),
         ("password_hash", Val.str (hashPassword "pw" "salt")),
         ("salt", Val.str "salt"), ("preferred_language", Val.str "en"),
         ("verification_code", Val.str (("code123".take 6).toUpper))])
        "credit_balance" = some (Val.num 0) ∧
    getField (storeInsertDefaults
        [("first_name", Val.str "A"), ("last_name", Val.str "B"),
         ("email", Val.str "e@x"), ("phone_number", Val.str "123"),
         ("date_of_birth", Val.str "1990-05-20"), ("address", Val.str "addr"),
         ("registration_date", Val.str "2024-01-15"),
         ("password_hash", Val.str (hashPassword "pw" "salt")),
         ("salt", Val.str "salt"), ("preferred_language", Val.str "en"),
         ("verification_code", Val.str (("code123".take 6).toUpper))])
        "rating" = some (Val.num 0) ∧
    getField (storeInsertDefaults
        [("first_name", Val.str "A"), ("last_name", Val.str "B"),
         ("email", Val.str "e@x"), ("phone_number", Val.str "123"),
         ("date_of_birth", Val.str "1990-05-20"), ("address", Val.str "addr"),
         ("registration_date", Val.str "2024-01-15"),
         ("password_hash", Val.str (hashPassword "pw" "salt")),
         ("salt", Val.str "salt"), ("preferred_language", Val.str "en"),
         ("verification_code", Val.str (("code123".take 6).toUpper))])
        "verification_code" = some (Val.str (("code123".take 6).toUpper)) ∧
    (manage_dweller (Db.mk [] [] [])
        [("action", "add_dweller"), ("first_name", "A"), ("last_name", "B"),
         ("password", "pw"), ("registration_date", "01/15/2024"),
         ("date_of_birth", "05/20/1990"), ("phone_number", "123"),
         ("address", "addr")] "salt" "code123"
      = ((Db.mk [] [] []), [Flash.error
          "Invalid data: Invalid data format: Missing required field: email"])) :=
  add_dweller_amended (Db.mk [] [] []) "A" "B" "e@x" "pw" "123" "addr"
    "salt" "code123" (by decide) (by decide) (by decide) (by decide)

end CityApp
